import Mathlib

/-!
Verification of the command-line option descriptor hierarchy of
utils/cmdline/options.cpp: construction contracts, accessor
preconditions, the formatting helpers, and the validate/convert
protocol of path options and string options.

Contract checks (PRE, INV, UNREACHABLE from utils/sanity.hpp) are
fatal, not recoverable: they are modelled as the error branch of
Except (for constructors and accessors) or as a dedicated fatal
constructor (for validate and convert results), kept distinct from
the recoverable option_argument_value_error.
-/

namespace Cmdline

/-- A recoverable argument-validation error,
cmdline::option_argument_value_error: carries the formatted option
name, the offending raw text and a human-readable cause. -/
structure OptionArgumentValueError where
  optionName : String
  rawValue : String
  cause : String
  deriving DecidableEq

/-- Outcome of a validate method: normal return, a recoverable
option_argument_value_error, or a fatal contract-check failure. -/
inductive ValidateResult where
  | ok : ValidateResult
  | invalidArgumentValue : OptionArgumentValueError → ValidateResult
  | fatal : String → ValidateResult
  deriving DecidableEq

/-- Outcome of a convert method: the converted value, or a fatal
contract-check failure (PRE_MSG in path_option::convert). -/
inductive ConvertResult (α : Type) where
  | ok : α → ConvertResult α
  | fatal : String → ConvertResult α
  deriving DecidableEq

/-- The state of cmdline::base_option: members _short_name,
_long_name, _description, _arg_name, _has_default_value and
_default_value. An absent short name is the NUL sentinel; an absent
arg name or default value is stored as the empty string, with the
separate _has_default_value flag recording whether a default value
was supplied. -/
structure BaseOption where
  shortNameMem : Char
  longNameMem : String
  descriptionMem : String
  argNameMem : String
  hasDefaultValueMem : Bool
  defaultValueMem : String
  deriving DecidableEq

/-- base_option(short_name_, long_name_, description_, arg_name_,
default_value_): stores the members, mapping a NULL arg_name_ or
default_value_ (modelled as Option.none) to the empty string, and
checks INV(short_name_ != NUL); a violated check is fatal. -/
def mkBaseOptionShort (short_name_ : Char) (long_name_ description_ : String)
    (arg_name_ default_value_ : Option String) : Except String BaseOption :=
  if short_name_ = '\x00' then
    Except.error "INV failed: short_name_ is the NUL sentinel"
  else
    Except.ok
      { shortNameMem := short_name_
        longNameMem := long_name_
        descriptionMem := description_
        argNameMem := arg_name_.getD ""
        hasDefaultValueMem := default_value_.isSome
        defaultValueMem := default_value_.getD "" }

/-- base_option(long_name_, description_, arg_name_, default_value_):
the long-name-only constructor stores the NUL sentinel as the short
name and performs no contract check at all. -/
def mkBaseOptionLong (long_name_ description_ : String)
    (arg_name_ default_value_ : Option String) : Except String BaseOption :=
  Except.ok
    { shortNameMem := '\x00'
      longNameMem := long_name_
      descriptionMem := description_
      argNameMem := arg_name_.getD ""
      hasDefaultValueMem := default_value_.isSome
      defaultValueMem := default_value_.getD "" }

/-- base_option::has_short_name: true iff _short_name differs from the
NUL sentinel. -/
def BaseOption.has_short_name (o : BaseOption) : Bool :=
  o.shortNameMem != '\x00'

/-- base_option::short_name: PRE(has_short_name()), then returns
_short_name. -/
def BaseOption.short_name (o : BaseOption) : Except String Char :=
  if o.has_short_name then Except.ok o.shortNameMem
  else Except.error "PRE failed: has_short_name"

/-- base_option::long_name: plain accessor. -/
def BaseOption.long_name (o : BaseOption) : String :=
  o.longNameMem

/-- base_option::description: plain accessor. -/
def BaseOption.description (o : BaseOption) : String :=
  o.descriptionMem

/-- base_option::needs_arg: true iff _arg_name is non-empty. -/
def BaseOption.needs_arg (o : BaseOption) : Bool :=
  !o.argNameMem.isEmpty

/-- base_option::arg_name: INV(needs_arg()), then returns _arg_name. -/
def BaseOption.arg_name (o : BaseOption) : Except String String :=
  if o.needs_arg then Except.ok o.argNameMem
  else Except.error "INV failed: needs_arg"

/-- base_option::has_default_value: PRE(needs_arg()), then returns
_has_default_value. -/
def BaseOption.has_default_value (o : BaseOption) : Except String Bool :=
  if o.needs_arg then Except.ok o.hasDefaultValueMem
  else Except.error "PRE failed: needs_arg"

/-- base_option::default_value: INV(has_default_value()), then returns
_default_value; the has_default_value() call inside the check itself
checks PRE(needs_arg()). -/
def BaseOption.default_value (o : BaseOption) : Except String String :=
  match o.has_default_value with
  | Except.error e => Except.error e
  | Except.ok b =>
      if b then Except.ok o.defaultValueMem
      else Except.error "INV failed: has_default_value"

/-- base_option::format_short_name: PRE(has_short_name()); formats
F("-%c %s") % short_name() % arg_name() when needs_arg(), else
F("-%c") % short_name(). -/
def BaseOption.format_short_name (o : BaseOption) : Except String String :=
  if o.has_short_name then
    if o.needs_arg then
      Except.ok ("-" ++ o.shortNameMem.toString ++ " " ++ o.argNameMem)
    else
      Except.ok ("-" ++ o.shortNameMem.toString)
  else Except.error "PRE failed: has_short_name"

/-- base_option::format_long_name: no precondition; formats
F("--%s=%s") % long_name() % arg_name() when needs_arg(), else
F("--%s") % long_name(). -/
def BaseOption.format_long_name (o : BaseOption) : String :=
  if o.needs_arg then "--" ++ o.longNameMem ++ "=" ++ o.argNameMem
  else "--" ++ o.longNameMem

/-- base_option::validate: unconditionally UNREACHABLE_MSG, a fatal
condition, whatever the descriptor and the raw string. -/
def BaseOption.validate (_o : BaseOption) (_str : String) : ValidateResult :=
  ValidateResult.fatal "Option does not support an argument"

/-- Modelled from the spec: the constructor of utils::fs::path is not
part of this tree; per the spec it rejects the raw text, raising
utils::fs::error, when the underlying filesystem-path representation
rejects it, e.g. an embedded NUL or the empty string; otherwise it
yields the path value, kept here as its textual representation. The
construction is pure and deterministic. -/
def fs_path (s : String) : Except String String :=
  if s.isEmpty then Except.error "Invalid path: empty"
  else if s.data.contains '\x00' then Except.error "Invalid path: embedded NUL"
  else Except.ok s

/-- path_option::validate: builds fs_path from the raw value; on
utils::fs::error e it raises option_argument_value_error carrying
F("--%s") % long_name(), the raw value and e.what(); otherwise it
returns normally. -/
def path_option_validate (o : BaseOption) (raw_value : String) : ValidateResult :=
  match fs_path raw_value with
  | Except.ok _ => ValidateResult.ok
  | Except.error e =>
      ValidateResult.invalidArgumentValue
        { optionName := "--" ++ o.long_name
          rawValue := raw_value
          cause := e }

/-- path_option::convert: builds and returns fs_path from the raw
value; a construction failure hits PRE_MSG(false, ...), a fatal
contract violation, never a recoverable error. -/
def path_option_convert (raw_value : String) : ConvertResult String :=
  match fs_path raw_value with
  | Except.ok p => ConvertResult.ok p
  | Except.error e =>
      ConvertResult.fatal
        ("Raw value for path option not properly validated: " ++ e)

/-- string_option::validate: does nothing; every string is valid. -/
def string_option_validate (_o : BaseOption) (_raw_value : String) : ValidateResult :=
  ValidateResult.ok

/-- string_option::convert: returns the raw value unmodified; there is
no failure branch. -/
def string_option_convert (raw_value : String) : String :=
  raw_value

/-- Elimination helper: a successful run of the short-name constructor
determines every member of the resulting descriptor. -/
theorem mkBaseOptionShort_ok {c : Char} {ln d : String} {an dv : Option String}
    {o : BaseOption} (h : mkBaseOptionShort c ln d an dv = Except.ok o) :
    o = { shortNameMem := c
          longNameMem := ln
          descriptionMem := d
          argNameMem := an.getD ""
          hasDefaultValueMem := dv.isSome
          defaultValueMem := dv.getD "" } := by
  by_cases hc : c = '\x00'
  · simp [mkBaseOptionShort, hc] at h
  · simp [mkBaseOptionShort, hc] at h
    exact h.symm

/-- Elimination helper: a run of the long-name-only constructor always
succeeds and determines every member of the resulting descriptor. -/
theorem mkBaseOptionLong_ok {ln d : String} {an dv : Option String}
    {o : BaseOption} (h : mkBaseOptionLong ln d an dv = Except.ok o) :
    o = { shortNameMem := '\x00'
          longNameMem := ln
          descriptionMem := d
          argNameMem := an.getD ""
          hasDefaultValueMem := dv.isSome
          defaultValueMem := dv.getD "" } := by
  simp [mkBaseOptionLong] at h
  exact h.symm

/-- Helper: a string is non-empty in the sense of String.isEmpty iff it
differs from the empty string. -/
theorem string_isEmpty_false_iff (s : String) : (s.isEmpty = false) ↔ s ≠ "" := by
  rw [← Bool.not_eq_true, not_iff_not]
  exact String.isEmpty_iff s

/-- C1 counterexample: constructing a descriptor with short name x and
an EMPTY long name does not fail; the claim that construction fails
with a contract violation when the supplied long name is empty is
false, since neither constructor checks the long name. -/
theorem construction_empty_long_name_accepted :
    ¬ ∃ msg, mkBaseOptionShort 'x' "" "desc" none none = Except.error msg := by
  rintro ⟨msg, h⟩
  simp [mkBaseOptionShort] at h

/-- C1 (amended): construction through the short-name constructor
fails with a contract violation exactly when the supplied short name
equals the NUL sentinel, whatever the long name; the long-name-only
constructor never fails; in particular construction with any long name
and a non-sentinel short name succeeds. -/
theorem construction_contract (c : Char) (ln d : String) (an dv : Option String) :
    ((∃ msg, mkBaseOptionShort c ln d an dv = Except.error msg) ↔ c = '\x00') ∧
    (∃ o, mkBaseOptionLong ln d an dv = Except.ok o) := by
  refine ⟨⟨?_, ?_⟩, ⟨_, rfl⟩⟩
  · rintro ⟨msg, h⟩
    by_contra hc
    simp [mkBaseOptionShort, hc] at h
  · intro hc
    exact ⟨"INV failed: short_name_ is the NUL sentinel",
      by simp [mkBaseOptionShort, hc]⟩

/-- C1 witness: at the concrete inputs of the amended claim, a
non-sentinel short name v with long name verbose builds successfully,
and the sentinel short name is rejected. -/
theorem construction_contract_witness :
    ((∃ msg, mkBaseOptionShort 'v' "verbose" "d" none none = Except.error msg) ↔
        ('v' = '\x00')) ∧
    (∃ o, mkBaseOptionLong "verbose" "d" none none = Except.ok o) :=
  construction_contract 'v' "verbose" "d" none none

/-- C2: for every descriptor built by either constructor, needs_arg()
is true exactly when an arg name was supplied (non-NULL) and was
non-empty. -/
theorem needs_arg_iff_nonempty_arg_name (c : Char) (ln d : String)
    (an dv : Option String) (o : BaseOption)
    (h : mkBaseOptionShort c ln d an dv = Except.ok o ∨
         mkBaseOptionLong ln d an dv = Except.ok o) :
    o.needs_arg = true ↔ ∃ a, an = some a ∧ a ≠ "" := by
  have harg : o.argNameMem = an.getD "" := by
    rcases h with h | h
    · rw [mkBaseOptionShort_ok h]
    · rw [mkBaseOptionLong_ok h]
  rw [BaseOption.needs_arg, harg, Bool.not_eq_true']
  cases an with
  | none =>
      rw [Option.getD_none]
      refine ⟨fun hf => absurd hf (by decide), fun hex => ?_⟩
      obtain ⟨a, ha, _⟩ := hex
      cases ha
  | some a =>
      rw [Option.getD_some]
      simp [string_isEmpty_false_iff a]

/-- C2 witness: a descriptor built with the supplied non-empty arg
name FILE needs an argument. -/
theorem needs_arg_iff_nonempty_arg_name_witness :
    (({ shortNameMem := 'o', longNameMem := "output", descriptionMem := "d",
        argNameMem := "FILE", hasDefaultValueMem := false,
        defaultValueMem := "" } : BaseOption).needs_arg = true) ↔
      ∃ a, some "FILE" = some a ∧ a ≠ "" :=
  needs_arg_iff_nonempty_arg_name 'o' "output" "d" (some "FILE") none _
    (Or.inl (by simp [mkBaseOptionShort]))

/-- C3: whenever path_option::validate returns normally on a raw
string, path_option::convert on the same string reaches its success
branch, never the fatal PRE_MSG branch; and string_option::convert is
the total identity, with no failure branch at all. -/
theorem convert_total_after_validate (o : BaseOption) (raw : String) :
    (path_option_validate o raw = ValidateResult.ok →
        ∃ p, path_option_convert raw = ConvertResult.ok p) ∧
    string_option_convert raw = raw := by
  refine ⟨?_, rfl⟩
  intro h
  cases hfp : fs_path raw with
  | ok p => exact ⟨p, by simp [path_option_convert, hfp]⟩
  | error e => simp [path_option_validate, hfp] at h

/-- C3 witness: the path argument /tmp/x passes validation, hence
conversion succeeds on it. -/
theorem convert_total_after_validate_witness :
    ∃ p, path_option_convert "/tmp/x" = ConvertResult.ok p :=
  (convert_total_after_validate
    { shortNameMem := 'o', longNameMem := "output", descriptionMem := "d",
      argNameMem := "FILE", hasDefaultValueMem := false,
      defaultValueMem := "" } "/tmp/x").1 (by decide)

/-- C4: path_option::validate raises option_argument_value_error
exactly when the filesystem-path construction rejects the raw text;
the raised error carries the formatted long name (the long name with
the leading double dash), the offending raw text and the underlying
error message as cause; otherwise validate returns normally. -/
theorem path_validate_spec (o : BaseOption) (raw : String) :
    (∀ e, fs_path raw = Except.error e →
        path_option_validate o raw = ValidateResult.invalidArgumentValue
          { optionName := "--" ++ o.long_name, rawValue := raw, cause := e }) ∧
    (∀ p, fs_path raw = Except.ok p →
        path_option_validate o raw = ValidateResult.ok) ∧
    ((∃ err, path_option_validate o raw =
        ValidateResult.invalidArgumentValue err) ↔
      ∃ e, fs_path raw = Except.error e) := by
  refine ⟨?_, ?_, ?_, ?_⟩
  · intro e he
    simp [path_option_validate, he]
  · intro p hp
    simp [path_option_validate, hp]
  · rintro ⟨err, herr⟩
    cases hfp : fs_path raw with
    | ok p => simp [path_option_validate, hfp] at herr
    | error e => exact ⟨e, rfl⟩
  · rintro ⟨e, he⟩
    exact ⟨{ optionName := "--" ++ o.long_name, rawValue := raw, cause := e },
      by simp [path_option_validate, he]⟩

/-- C4 witness: on the empty raw text, rejected by the path
construction, validate of an option with long name output raises the
error carrying the formatted name, the raw text and the cause. -/
theorem path_validate_spec_witness :
    path_option_validate
      { shortNameMem := 'o', longNameMem := "output", descriptionMem := "d",
        argNameMem := "FILE", hasDefaultValueMem := false,
        defaultValueMem := "" } "" =
      ValidateResult.invalidArgumentValue
        { optionName := "--output", rawValue := "",
          cause := "Invalid path: empty" } :=
  (path_validate_spec
    { shortNameMem := 'o', longNameMem := "output", descriptionMem := "d",
      argNameMem := "FILE", hasDefaultValueMem := false,
      defaultValueMem := "" } "").1 "Invalid path: empty" rfl

/-- C5: string_option::validate succeeds on every string, the empty
one included, and string_option::convert returns every string
unmodified: the identity law. -/
theorem string_option_identity (o : BaseOption) (s : String) :
    string_option_validate o s = ValidateResult.ok ∧
    string_option_convert s = s :=
  ⟨rfl, rfl⟩

/-- C6: format_long_name() needs no precondition and yields the long
name after a double dash, with the arg name appended after an equals
sign exactly when the option needs an argument; in particular a
no-argument option named verbose yields the plain form and an argument
option named output with arg name FILE yields the form with FILE. -/
theorem format_long_name_spec (c : Char) (ln d : String) (dv : Option String) :
    (∀ an o, an ≠ "" → mkBaseOptionShort c ln d (some an) dv = Except.ok o →
        o.format_long_name = "--" ++ ln ++ "=" ++ an) ∧
    (∀ o, mkBaseOptionShort c ln d none dv = Except.ok o →
        o.format_long_name = "--" ++ ln) ∧
    (∀ o, mkBaseOptionLong "verbose" d none dv = Except.ok o →
        o.format_long_name = "--verbose") ∧
    (∀ o, mkBaseOptionLong "output" d (some "FILE") dv = Except.ok o →
        o.format_long_name = "--output=FILE") := by
  refine ⟨?_, ?_, ?_, ?_⟩
  · intro an o han h
    rw [mkBaseOptionShort_ok h]
    simp [BaseOption.format_long_name, BaseOption.needs_arg,
      string_isEmpty_false_iff an, han]
  · intro o h
    rw [mkBaseOptionShort_ok h]
    have he : ("" : String).isEmpty = true := by decide
    simp [BaseOption.format_long_name, BaseOption.needs_arg, he]
  · intro o h
    rw [mkBaseOptionLong_ok h]
    have he : ("" : String).isEmpty = true := by decide
    simp [BaseOption.format_long_name, BaseOption.needs_arg, he]
  · intro o h
    rw [mkBaseOptionLong_ok h]
    have hf : ("FILE" : String).isEmpty = false := by decide
    simp [BaseOption.format_long_name, BaseOption.needs_arg, hf]

/-- C6 witness: the two concrete renderings of the claim, obtained
from descriptors built by the long-name-only constructor. -/
theorem format_long_name_spec_witness :
    ({ shortNameMem := '\x00', longNameMem := "verbose",
       descriptionMem := "d", argNameMem := "",
       hasDefaultValueMem := false,
       defaultValueMem := "" } : BaseOption).format_long_name = "--verbose" ∧
    ({ shortNameMem := '\x00', longNameMem := "output",
       descriptionMem := "d", argNameMem := "FILE",
       hasDefaultValueMem := false,
       defaultValueMem := "" } : BaseOption).format_long_name =
      "--output=FILE" :=
  ⟨(format_long_name_spec 'v' "verbose" "d" none).2.2.1 _ rfl,
   (format_long_name_spec 'v' "verbose" "d" none).2.2.2 _ rfl⟩

/-- C7: under the precondition has_short_name(), format_short_name()
yields the short name after a dash, with the arg name appended after a
space exactly when the option needs an argument. -/
theorem format_short_name_spec (c : Char) (ln d : String) (dv : Option String)
    (hc : c ≠ '\x00') :
    (∀ an o, an ≠ "" → mkBaseOptionShort c ln d (some an) dv = Except.ok o →
        o.format_short_name = Except.ok ("-" ++ c.toString ++ " " ++ an)) ∧
    (∀ o, mkBaseOptionShort c ln d none dv = Except.ok o →
        o.format_short_name = Except.ok ("-" ++ c.toString)) := by
  constructor
  · intro an o han h
    rw [mkBaseOptionShort_ok h]
    simp [BaseOption.format_short_name, BaseOption.has_short_name,
      BaseOption.needs_arg, string_isEmpty_false_iff an, han, hc]
  · intro o h
    rw [mkBaseOptionShort_ok h]
    have he : ("" : String).isEmpty = true := by decide
    simp [BaseOption.format_short_name, BaseOption.has_short_name,
      BaseOption.needs_arg, hc, he]

/-- C7 witness: short name o with arg name FILE renders with the
space-separated arg name, and without an argument renders as the bare
dashed short name. -/
theorem format_short_name_spec_witness :
    ({ shortNameMem := 'o', longNameMem := "output", descriptionMem := "d",
       argNameMem := "FILE", hasDefaultValueMem := false,
       defaultValueMem := "" } : BaseOption).format_short_name =
        Except.ok "-o FILE" ∧
    ({ shortNameMem := 'o', longNameMem := "output", descriptionMem := "d",
       argNameMem := "", hasDefaultValueMem := false,
       defaultValueMem := "" } : BaseOption).format_short_name =
        Except.ok "-o" :=
  ⟨(format_short_name_spec 'o' "output" "d" none (by decide)).1 "FILE" _
      (by decide) (by simp [mkBaseOptionShort]),
   (format_short_name_spec 'o' "output" "d" none (by decide)).2 _
      (by simp [mkBaseOptionShort])⟩

/-- C8: the non-overridden base validate signals the fatal UNREACHABLE
condition on every descriptor and every raw string: it never returns
normally and never raises the recoverable
option_argument_value_error. -/
theorem base_validate_fatal (o : BaseOption) (raw : String) :
    o.validate raw =
        ValidateResult.fatal "Option does not support an argument" ∧
    o.validate raw ≠ ValidateResult.ok ∧
    ∀ err, o.validate raw ≠ ValidateResult.invalidArgumentValue err := by
  refine ⟨rfl, ?_, ?_⟩
  · intro h
    exact ValidateResult.noConfusion h
  · intro err h
    exact ValidateResult.noConfusion h

/-- C8 witness: at a concrete descriptor and raw string, the base
validate does not return normally. -/
theorem base_validate_fatal_witness :
    ({ shortNameMem := 'v', longNameMem := "verbose", descriptionMem := "d",
       argNameMem := "", hasDefaultValueMem := false,
       defaultValueMem := "" } : BaseOption).validate "x" ≠
      ValidateResult.ok :=
  (base_validate_fatal
    { shortNameMem := 'v', longNameMem := "verbose", descriptionMem := "d",
      argNameMem := "", hasDefaultValueMem := false,
      defaultValueMem := "" } "x").2.1

/-- C9: a descriptor built by either constructor with a supplied
default value and a non-empty arg name reports has_default_value()
true and default_value() equal to the supplied text, the empty
supplied default included: presence of a default depends only on
whether one was supplied, never on its content. -/
theorem default_value_reflects_supplied (c : Char) (ln d an dvv : String)
    (han : an ≠ "") (o : BaseOption)
    (h : mkBaseOptionShort c ln d (some an) (some dvv) = Except.ok o ∨
         mkBaseOptionLong ln d (some an) (some dvv) = Except.ok o) :
    o.has_default_value = Except.ok true ∧
    o.default_value = Except.ok dvv := by
  have hfields : o.argNameMem = an ∧ o.hasDefaultValueMem = true ∧
      o.defaultValueMem = dvv := by
    rcases h with h | h
    · rw [mkBaseOptionShort_ok h]
      exact ⟨rfl, rfl, rfl⟩
    · rw [mkBaseOptionLong_ok h]
      exact ⟨rfl, rfl, rfl⟩
  obtain ⟨h1, h2, h3⟩ := hfields
  have hna : o.needs_arg = true := by
    rw [BaseOption.needs_arg, h1, Bool.not_eq_true',
      string_isEmpty_false_iff an]
    exact han
  have hdv : o.has_default_value = Except.ok true := by
    rw [BaseOption.has_default_value, hna]
    simp [h2]
  refine ⟨hdv, ?_⟩
  rw [BaseOption.default_value, hdv]
  simp [h3]

/-- C9 witness: a descriptor built with arg name FILE and the EMPTY
string supplied as default value still reports has_default_value()
true and returns the empty default. -/
theorem default_value_reflects_supplied_witness :
    ({ shortNameMem := '\x00', longNameMem := "output",
       descriptionMem := "d", argNameMem := "FILE",
       hasDefaultValueMem := true,
       defaultValueMem := "" } : BaseOption).has_default_value =
        Except.ok true ∧
    ({ shortNameMem := '\x00', longNameMem := "output",
       descriptionMem := "d", argNameMem := "FILE",
       hasDefaultValueMem := true,
       defaultValueMem := "" } : BaseOption).default_value =
        Except.ok "" :=
  default_value_reflects_supplied 'z' "output" "d" "FILE" "" (by decide) _
    (Or.inr rfl)

/-- C10: a descriptor built with the empty string supplied as arg name
is indistinguishable from one built with no arg name at all: under
either constructor the two runs build the very same descriptor value,
and needs_arg() is false on it. -/
theorem empty_arg_name_like_absent (c : Char) (ln d : String)
    (dv : Option String) (o1 o2 o3 o4 : BaseOption)
    (h1 : mkBaseOptionShort c ln d (some "") dv = Except.ok o1)
    (h2 : mkBaseOptionShort c ln d none dv = Except.ok o2)
    (h3 : mkBaseOptionLong ln d (some "") dv = Except.ok o3)
    (h4 : mkBaseOptionLong ln d none dv = Except.ok o4) :
    o1 = o2 ∧ o3 = o4 ∧ o1.needs_arg = false ∧ o3.needs_arg = false := by
  have e1 := mkBaseOptionShort_ok h1
  have e2 := mkBaseOptionShort_ok h2
  have e3 := mkBaseOptionLong_ok h3
  have e4 := mkBaseOptionLong_ok h4
  have he : ("" : String).isEmpty = true := by decide
  refine ⟨?_, ?_, ?_, ?_⟩
  · rw [e1, e2]
    rfl
  · rw [e3, e4]
    rfl
  · rw [e1]
    simp [BaseOption.needs_arg, he]
  · rw [e3]
    simp [BaseOption.needs_arg, he]

/-- C10 witness: at concrete inputs, the descriptor built with the
empty arg name equals the one built with no arg name, and needs no
argument. -/
theorem empty_arg_name_like_absent_witness :
    ({ shortNameMem := 'v', longNameMem := "verbose", descriptionMem := "d",
       argNameMem := "", hasDefaultValueMem := false,
       defaultValueMem := "" } : BaseOption) =
      { shortNameMem := 'v', longNameMem := "verbose", descriptionMem := "d",
        argNameMem := "", hasDefaultValueMem := false,
        defaultValueMem := "" } ∧
    ({ shortNameMem := '\x00', longNameMem := "verbose",
       descriptionMem := "d", argNameMem := "", hasDefaultValueMem := false,
       defaultValueMem := "" } : BaseOption) =
      { shortNameMem := '\x00', longNameMem := "verbose",
        descriptionMem := "d", argNameMem := "", hasDefaultValueMem := false,
        defaultValueMem := "" } ∧
    ({ shortNameMem := 'v', longNameMem := "verbose", descriptionMem := "d",
       argNameMem := "", hasDefaultValueMem := false,
       defaultValueMem := "" } : BaseOption).needs_arg = false ∧
    ({ shortNameMem := '\x00', longNameMem := "verbose",
       descriptionMem := "d", argNameMem := "", hasDefaultValueMem := false,
       defaultValueMem := "" } : BaseOption).needs_arg = false :=
  empty_arg_name_like_absent 'v' "verbose" "d" none _ _ _ _
    (by simp [mkBaseOptionShort]) (by simp [mkBaseOptionShort]) rfl rfl

end Cmdline
